import Mathlib

/-!
Verification of the synthetic FAT16 mass-storage core of the esp32usb
library (src/usb_msc.cpp).  The definitions below are a shallow embedding
of that translation unit: machine integers are modelled as `Nat` with an
explicit `% 2^w` wherever the C code truncates, buffers are functions
`Nat → Nat` from byte (or FAT-entry) index to value, and the external
ESP-IDF services (OTA writer, partition lookup, FreeRTOS timer) are
modelled by explicit oracle inputs.  The build configuration is the one
the source is written against: `CONFIG_ESPUSB_MSC_LONG_FILENAMES` enabled,
little-endian target (so `htole16`/`htole32` are the identity on values;
byte order only matters when a buffer is serialised).
-/

namespace Esp32Usb

/-- 32-bit unsigned subtraction, for the places where the C code subtracts
`uint32_t`/`size_t` values that may wrap.  For `b ≤ a < 2^32` this agrees
with plain subtraction. -/
def sub32 (a b : Nat) : Nat :=
  (a + 4294967296 - b % 4294967296) % 4294967296

/-- The Kconfig parameters of the virtual disk
(`CONFIG_ESPUSB_MSC_VDISK_SECTOR_SIZE`, `_SECTOR_COUNT`,
`_RESERVED_SECTOR_COUNT`, `_FILE_COUNT`). -/
structure Geometry where
  sectorSize : Nat
  sectorCount : Nat
  reservedSectors : Nat
  fileCount : Nat
deriving DecidableEq, Repr

/-- `DIRENTRIES_PER_SECTOR = SECTOR_SIZE / sizeof(fat_direntry_t)` (32 bytes). -/
def DIRENTRIES_PER_SECTOR (g : Geometry) : Nat := g.sectorSize / 32

/-- `SECTORS_PER_FAT_TABLE = ((SECTOR_COUNT * 2) + (SECTOR_SIZE - 1)) / SECTOR_SIZE`. -/
def SECTORS_PER_FAT_TABLE (g : Geometry) : Nat :=
  (g.sectorCount * 2 + (g.sectorSize - 1)) / g.sectorSize

/-- `FAT_COPY_0_FIRST_SECTOR = RESERVED_SECTOR_COUNT`. -/
def FAT_COPY_0_FIRST_SECTOR (g : Geometry) : Nat := g.reservedSectors

/-- `FAT_COPY_1_FIRST_SECTOR = FAT_COPY_0_FIRST_SECTOR + SECTORS_PER_FAT_TABLE`. -/
def FAT_COPY_1_FIRST_SECTOR (g : Geometry) : Nat :=
  FAT_COPY_0_FIRST_SECTOR g + SECTORS_PER_FAT_TABLE g

/-- `ROOT_DIR_SECTOR_COUNT = FILE_COUNT / DIRENTRIES_PER_SECTOR`. -/
def ROOT_DIR_SECTOR_COUNT (g : Geometry) : Nat :=
  g.fileCount / DIRENTRIES_PER_SECTOR g

/-- `ROOT_DIR_FIRST_SECTOR = FAT_COPY_1_FIRST_SECTOR + SECTORS_PER_FAT_TABLE`. -/
def ROOT_DIR_FIRST_SECTOR (g : Geometry) : Nat :=
  FAT_COPY_1_FIRST_SECTOR g + SECTORS_PER_FAT_TABLE g

/-- `FILE_CONTENT_FIRST_SECTOR = ROOT_DIR_FIRST_SECTOR + ROOT_DIR_SECTOR_COUNT`. -/
def FILE_CONTENT_FIRST_SECTOR (g : Geometry) : Nat :=
  ROOT_DIR_FIRST_SECTOR g + ROOT_DIR_SECTOR_COUNT g

/-- `FAT_CLUSTER_END_OF_FILE = 0xFFFF`. -/
def FAT_CLUSTER_END_OF_FILE : Nat := 0xFFFF

/-- Media descriptor byte of the static `s_bios_boot_sector` (0xF8). -/
def media_descriptor : Nat := 0xF8

/-- `MAX_FILENAME_LENGTH` with `CONFIG_ESPUSB_MSC_LONG_FILENAMES` enabled. -/
def MAX_FILENAME_LENGTH : Nat := 38

/-- One 32-byte VFAT long-filename directory entry (`fat_long_filename_t`).
The three name fields hold 5, 6 and 2 UTF-16 code units. -/
structure fat_long_filename_t where
  sequence : Nat
  name1 : List Nat
  attributes : Nat
  entry_type : Nat
  checksum : Nat
  name2 : List Nat
  start_cluster : Nat
  name3 : List Nat
deriving DecidableEq, Repr

/-- One registered file (`fat_file_entry_t`).  `contentAt` gives the byte at
a given offset of the content source (inline bytes, or the external
partition reader for partition-backed files); `partition_read_ok` models
whether the external `esp_partition_read` succeeds for this file. -/
structure fat_file_entry_t where
  name : List Nat
  ext : List Nat
  contentAt : Nat → Nat
  attributes : Nat
  size : Nat
  start_sector : Nat
  end_sector : Nat
  start_cluster : Nat
  end_cluster : Nat
  has_partition : Bool
  partition_read_ok : Bool
  printable_name : List Nat
  root_dir_sector : Nat
  lfn_parts : List fat_long_filename_t

/-- `dirent_attr_t` values used below. -/
def DIRENT_READ_ONLY : Nat := 0x01

def DIRENT_HIDDEN : Nat := 0x02

def DIRENT_SYSTEM : Nat := 0x04

def DIRENT_VOLUME_LABEL : Nat := 0x08

def DIRENT_ARCHIVE : Nat := 0x20

/-- Return codes of ESP-IDF APIs that the registration surface produces. -/
inductive EspErr
  | ok
  | invalid_state
  | not_found
deriving DecidableEq, Repr

/-- `toupper` on a byte in the C locale. -/
def c_toupper (c : Nat) : Nat :=
  if 97 ≤ c ∧ c ≤ 122 then c - 32 else c

/-- Index of the first `.` in a name, as `name.find_first_of('.')`. -/
def find_dot (nm : List Nat) : Option Nat :=
  nm.findIdx? (fun c => c = 46)

/-- The 8-byte base name, 3-byte extension and printable name produced by
the name-splitting section of `register_virtual_file` (lines 439-486).
Both short-name fields are space padded and upper-cased. -/
def split_name (nm : List Nat) : List Nat × List Nat × List Nat :=
  match find_dot nm with
  | none =>
      -- no '.' present: truncate to MAX_FILENAME_LENGTH, memcpy up to 11
      -- bytes into the contiguous name+ext fields, then upper-case both.
      let base := nm.take MAX_FILENAME_LENGTH
      let name11 := (base.take 11 ++ List.replicate (11 - base.length) 32).take 11
      let name11 := name11.map c_toupper
      (name11.take 8, name11.drop 8, base)
  | some pos =>
      let base0 := nm.take pos
      let extension := (nm.drop (pos + 1)).take 3
      let base := base0.take (MAX_FILENAME_LENGTH - 3)
      let name8 :=
        ((base.take 8).map c_toupper) ++ List.replicate (8 - base.length) 32
      let ext3 := extension.map c_toupper ++ List.replicate (3 - extension.length) 32
      (name8.take 8, ext3.take 3, base ++ [46] ++ extension)

/-- The checksum recurrence of lines 497-501:
`lfn_checksum = ((lfn_checksum & 1) << 7) + (lfn_checksum >> 1) + *p++`,
truncated to `uint8_t`. -/
def lfn_checksum_step (c b : Nat) : Nat :=
  (((c &&& 1) <<< 7) + (c >>> 1) + b) % 256

/-- Checksum of the 11 short-name bytes (the loop at lines 495-501). -/
def lfn_checksum (bytes : List Nat) : Nat :=
  bytes.foldl lfn_checksum_step 0

/-- Padding of one name fragment to 13 bytes (lines 514-523): a fragment
shorter than 13 characters gets one 0x00 terminator, then 0xFF padding. -/
def pad13 (part : List Nat) : List Nat :=
  let part := if part.length < 13 then part ++ [0] else part
  part ++ List.replicate (13 - part.length) 255

/-- Encoding of one padded byte as a UTF-16 code unit (lines 526-540): the
0xFF pad bytes become 0xFFFF, everything else is used as-is.  (Callers pass
ASCII names; the source reads `char`s, so bytes in 128..254 would be
sign-extension dependent, but they do not occur in ASCII names.) -/
def lfn_unit (b : Nat) : Nat :=
  if b = 255 then 0xFFFF else b

/-- One LFN fragment as filled in by the loop body (lines 506-540). -/
def lfn_fragment (cs seq : Nat) (part13 : List Nat) : fat_long_filename_t :=
  { sequence := seq
    checksum := cs
    attributes := DIRENT_READ_ONLY ||| DIRENT_HIDDEN ||| DIRENT_SYSTEM ||| DIRENT_VOLUME_LABEL
    entry_type := 0
    start_cluster := 0
    name1 := (part13.take 5).map lfn_unit
    name2 := ((part13.drop 5).take 6).map lfn_unit
    name3 := (part13.drop 11).map lfn_unit }

/-- The fragments in build order (the `while (offs < length)` loop, with
`sequence = fragments++` starting at `seq`).  `offs` advances by 13 on
every iteration because `name_part` is padded to exactly 13 bytes; the
structural `fuel` argument (passed as `pn.length` by the caller, an upper
bound on the loop count since each iteration consumes at least one byte)
only makes that termination explicit. -/
def build_lfn_list (cs : Nat) : Nat → List Nat → Nat → List fat_long_filename_t
  | 0, _, _ => []
  | _ + 1, [], _ => []
  | fuel + 1, b :: rest, seq =>
      lfn_fragment cs seq (pad13 ((b :: rest).take 13)) ::
        build_lfn_list cs fuel ((b :: rest).drop 13) (seq + 1)

/-- `file.lfn_parts[0].sequence |= 0x40` (line 545). -/
def mark_last_in_sequence : List fat_long_filename_t → List fat_long_filename_t
  | [] => []
  | h :: t => { h with sequence := h.sequence ||| 0x40 } :: t

/-- The final `lfn_parts` vector: fragments are inserted at the front of
the vector as they are built (line 542), so the vector is the reverse of
build order, and the head (highest sequence) is then flagged with 0x40. -/
def make_lfn_parts (cs : Nat) (pn : List Nat) : List fat_long_filename_t :=
  mark_last_in_sequence ((build_lfn_list cs pn.length pn 1).reverse)

/-- The number of directory entries the file needs (lines 575-588). -/
def entries_needed (pn : List Nat) : Nat :=
  1 + (if pn.length > 12 then
        1 + (if pn.length > 13 then 1 else 0) + (if pn.length > 26 then 1 else 0)
      else 0)

/-- State mutated by registration: the file vector `s_root_directory` and
the per-sector usage counters `s_root_directory_entry_usage`. -/
structure VDiskState where
  root_directory : List fat_file_entry_t
  entry_usage : List Nat

/-- State after `configure_virtual_disk`: no files, usage all zero except
sector 0 which already tracks the volume label. -/
def initial_vdisk (g : Geometry) : VDiskState :=
  { root_directory := []
    entry_usage := (List.replicate (ROOT_DIR_SECTOR_COUNT g) 0).set 0 1 }

/-- Input of one `register_virtual_file` call. -/
structure RegInput where
  name : List Nat
  contentAt : Nat → Nat
  size : Nat
  read_only : Bool
  has_partition : Bool
  partition_read_ok : Bool

/-- The root-directory-sector scan of lines 572-595: first index whose
usage leaves `entries_needed` slots strictly below the sector capacity. -/
def find_root_dir_slot (g : Geometry) (usage : List Nat) (needed : Nat) : Option Nat :=
  (List.range (ROOT_DIR_SECTOR_COUNT g)).find?
    (fun i => usage.getD i 0 + needed < DIRENTRIES_PER_SECTOR g)

/-- The end sector and end cluster of the last registered file, which
seed the next file's span (lines 558-567). -/
def prev_span (s : VDiskState) : Option (Nat × Nat) :=
  s.root_directory.getLast?.map (fun last => (last.end_sector, last.end_cluster))

/-- The `fat_file_entry_t` value `register_virtual_file` constructs
(lines 433-571), as a function of the input, the previous file's end
span (`none` for an empty table) and the assigned root-directory sector.
Cluster fields are `uint16_t` and sector fields `uint32_t`, hence the
explicit truncations. -/
def make_file_entry (g : Geometry) (inp : RegInput) (prev : Option (Nat × Nat))
    (rds : Nat) : fat_file_entry_t :=
  let sp := split_name inp.name
  let pn := sp.2.2
  -- mark the name as truncated for long names: name[6] = '~', name[7] = '1'
  let name8 := if pn.length > 12 then (sp.1.set 6 126).set 7 49 else sp.1
  let ext3 := sp.2.1
  let lfnParts :=
    if pn.length > 12 then make_lfn_parts (lfn_checksum (name8 ++ ext3)) pn
    else ([] : List fat_long_filename_t)
  let startSpan :=
    match prev with
    | none => (FILE_CONTENT_FIRST_SECTOR g, 2)
    | some (prevSec, prevClu) => ((prevSec + 1) % 4294967296, (prevClu + 1) % 65536)
  { name := name8
    ext := ext3
    contentAt := inp.contentAt
    attributes := DIRENT_ARCHIVE ||| (if inp.read_only then DIRENT_READ_ONLY else 0)
    size := inp.size
    start_sector := startSpan.1
    end_sector := (startSpan.1 + inp.size / g.sectorSize) % 4294967296
    start_cluster := startSpan.2
    end_cluster := (startSpan.2 + inp.size / g.sectorSize) % 65536
    has_partition := inp.has_partition
    partition_read_ok := inp.partition_read_ok
    printable_name := pn
    root_dir_sector := rds
    lfn_parts := lfnParts }

/-- `register_virtual_file` (lines 421-603).  A full table is rejected up
front; otherwise the file is appended unconditionally — when the slot scan
finds no root-directory sector, `file.root_dir_sector` keeps its
zero-initialized value and the usage counters stay unchanged. -/
def register_virtual_file (g : Geometry) (s : VDiskState) (inp : RegInput) :
    VDiskState × EspErr :=
  if s.root_directory.length > g.fileCount - 1 then (s, .invalid_state)
  else
    let needed := entries_needed (split_name inp.name).2.2
    let slot := find_root_dir_slot g s.entry_usage needed
    let usage :=
      match slot with
      | some i => s.entry_usage.set i ((s.entry_usage.getD i 0 + needed) % 256)
      | none => s.entry_usage
    let f := make_file_entry g inp (prev_span s) (slot.getD 0)
    ({ root_directory := s.root_directory ++ [f], entry_usage := usage }, .ok)

/-- Folding a sequence of registrations from the configured state. -/
def register_all (g : Geometry) (inputs : List RegInput) : VDiskState :=
  inputs.foldl (fun s inp => (register_virtual_file g s inp).1) (initial_vdisk g)

/-! ### READ(10): the sector synthesizer (`tud_msc_read10_cb`, lines 725-882) -/

/-- The region an LBA falls into, following the `if`/`else if` chain of
`tud_msc_read10_cb` (the same chain classifies writes). -/
inductive SectorRegion
  | boot
  | fat
  | rootdir
  | data
deriving DecidableEq, Repr

/-- Branch selection of `tud_msc_read10_cb` / `tud_msc_write10_cb`. -/
def classify_lba (g : Geometry) (lba : Nat) : SectorRegion :=
  if lba = 0 then .boot
  else if lba < ROOT_DIR_FIRST_SECTOR g then .fat
  else if lba < FILE_CONTENT_FIRST_SECTOR g then .rootdir
  else .data

/-- Lines 737-741: `fat_table = lba - FAT_COPY_0_FIRST_SECTOR` (uint32),
reduced by `fat_sectors` only when strictly greater. -/
def fat_table_index (g : Geometry) (lba : Nat) : Nat :=
  let ft := sub32 lba (FAT_COPY_0_FIRST_SECTOR g)
  if ft > SECTORS_PER_FAT_TABLE g then ft - SECTORS_PER_FAT_TABLE g else ft

/-- The zeroed buffer plus the reserved entries of lines 747-753: on the
first FAT sector entry 0 is `0xFF00 | media_descriptor` and entry 1 is
`FAT_CLUSTER_END_OF_FILE`. -/
def fat_base_entries (ft : Nat) : Nat → Nat :=
  fun idx =>
    if ft = 0 then
      if idx = 0 then 0xFF00 ||| media_descriptor
      else if idx = 1 then FAT_CLUSTER_END_OF_FILE
      else 0
    else 0

/-- The per-file update of the FAT buffer (lines 755-788).  Entry values
are `uint16_t`, hence the `% 65536` on `target_cluster + 1`.  Note the
source compares `target_cluster` against `file.end_sector` on line 777. -/
def fat_apply_file (clusterStart clusterEnd : Nat) (f : fat_file_entry_t)
    (buf : Nat → Nat) : Nat → Nat :=
  if f.start_cluster ≤ clusterEnd ∧ clusterStart ≤ f.end_cluster then
    fun idx =>
      if idx < 256 then
        let target := clusterStart + idx
        if f.start_cluster ≤ target ∧ target ≤ f.end_cluster then
          if target ≠ f.end_sector then (target + 1) % 65536
          else FAT_CLUSTER_END_OF_FILE
        else buf idx
      else buf idx
  else buf

/-- The 256 16-bit entries of the FAT sector synthesized for `lba`
(lines 735-789).  Index `i` of the result is the value host byte offsets
`2*i` (low byte) and `2*i + 1` (high byte) are filled from, little-endian. -/
def fat_sector_entries (g : Geometry) (files : List fat_file_entry_t) (lba : Nat) :
    Nat → Nat :=
  let ft := fat_table_index g lba
  let clusterStart := ft * 256
  let clusterEnd := (ft + 1) * 256 - 1
  files.foldl (fun buf f => fat_apply_file clusterStart clusterEnd f buf)
    (fat_base_entries ft)

/-- Low byte of the little-endian serialization of a 16-bit FAT entry. -/
def le16_lo (v : Nat) : Nat := v % 256

/-- High byte of the little-endian serialization of a 16-bit FAT entry. -/
def le16_hi (v : Nat) : Nat := v / 256 % 256

/-- The per-file update of the data-sector buffer (lines 847-877):
when the file covers `lba`, `temp_size` bytes of content starting at
`sector_offset` are copied over the buffer; the rest keeps its previous
(zeroed) value.  `file_size - sector_offset` is 32-bit unsigned. -/
def read_apply_file (g : Geometry) (lba offset bufsize : Nat) (f : fat_file_entry_t)
    (buf : Nat → Nat) : Nat → Nat :=
  if f.start_sector ≤ lba ∧ lba ≤ f.end_sector then
    let sector_idx := lba - f.start_sector
    let sector_offset := sector_idx * g.sectorSize + offset
    let temp_size :=
      if bufsize > sub32 f.size sector_offset then sub32 f.size sector_offset
      else bufsize
    fun i => if i < temp_size then f.contentAt (sector_offset + i) else buf i
  else buf

/-- The data-region branch of `tud_msc_read10_cb` (lines 844-881): the
buffer starts zeroed (`bzero`, line 728) and every covering file is copied
in vector order; a failing `esp_partition_read` returns `-1`
(`ESP_RETURN_ON_ERROR_READ`), otherwise the callback returns `bufsize`. -/
def read_data_go (g : Geometry) (lba offset bufsize : Nat) :
    List fat_file_entry_t → (Nat → Nat) → (Nat → Nat) × Int
  | [], buf => (buf, (bufsize : Int))
  | f :: rest, buf =>
    if f.start_sector ≤ lba ∧ lba ≤ f.end_sector then
      if f.has_partition ∧ ¬ f.partition_read_ok then
        (buf, (-1 : Int))
      else
        read_data_go g lba offset bufsize rest (read_apply_file g lba offset bufsize f buf)
    else read_data_go g lba offset bufsize rest buf

/-- Entry point of the data branch: zeroed buffer, then the file scan. -/
def tud_msc_read10_data (g : Geometry) (files : List fat_file_entry_t)
    (lba offset bufsize : Nat) : (Nat → Nat) × Int :=
  read_data_go g lba offset bufsize files (fun _ => 0)

/-- One 32-byte root-directory entry as synthesized by the root-directory
branch (lines 791-843). -/
inductive DirEntry32
  | volume (label : List Nat) (attributes : Nat)
  | lfn (e : fat_long_filename_t)
  | short (name : List Nat) (ext : List Nat) (attributes : Nat) (size : Nat)
      (start_cluster : Nat) (create_date : Nat) (update_date : Nat)
deriving Repr

/-- `space_padded_memcpy` (lines 292-298): bytes are copied from `src`
until a NUL byte, after which spaces are emitted; the source pointer is
not advanced past the NUL. -/
def space_padded_memcpy : Nat → List Nat → List Nat
  | 0, _ => []
  | n + 1, [] => 32 :: space_padded_memcpy n []
  | n + 1, b :: rest =>
      if b = 0 then 32 :: space_padded_memcpy n (b :: rest)
      else b :: space_padded_memcpy n rest

/-- The entries emitted for one file (lines 807-838): the LFN fragments in
vector order, then the 8.3 entry.  The 8.3 name is copied with length 11
from the contiguous name+ext fields (spilling into the dirent's ext field,
line 829) and the dirent ext is then overwritten from `file.ext`. -/
def file_dir_entries (f : fat_file_entry_t) : List DirEntry32 :=
  f.lfn_parts.map .lfn ++
    [.short ((space_padded_memcpy 11 (f.name ++ f.ext)).take 8)
        (space_padded_memcpy 3 f.ext) f.attributes f.size f.start_cluster 0x4d99 0x4d99]

/-- The root-directory sector `sector_idx` (lines 791-843): the volume
label dirent first on sector 0, then the entries of every file assigned to
this sector, in registration order. -/
def root_dir_entries (files : List fat_file_entry_t) (label : List Nat)
    (sector_idx : Nat) : List DirEntry32 :=
  (if sector_idx = 0 then [.volume label (DIRENT_ARCHIVE ||| DIRENT_VOLUME_LABEL)] else [])
    ++ (files.filter (fun f => f.root_dir_sector = sector_idx)).flatMap file_dir_entries

/-! ### WRITE(10): the write router and OTA pipeline
(`tud_msc_write10_cb`, lines 885-1035, and `msc_write_timeout_cb`,
lines 300-321) -/

/-- `ESP_IMAGE_HEADER_MAGIC`. -/
def ESP_IMAGE_HEADER_MAGIC : Nat := 0xE9

/-- `ESP_APP_DESC_MAGIC_WORD`. -/
def ESP_APP_DESC_MAGIC_WORD : Nat := 0xABCD5432

/-- `ESP_CHIP_ID_INVALID`. -/
def ESP_CHIP_ID_INVALID : Nat := 0xFFFF

/-- The fields of an incoming WRITE(10) buffer that the OTA pipeline
inspects: `buffer[0]` is the first byte of the packed `esp_image_header_t`,
i.e. its `magic` field; `chip_id` and the app descriptor's `magic_word`
are read from fixed offsets of the same buffer. -/
structure WriteBuffer where
  magic : Nat
  chip_id : Nat
  app_magic_word : Nat
  len : Nat
deriving DecidableEq, Repr

/-- Result of `esp_ota_get_next_update_partition`: no partition, the
currently running partition, or a usable distinct partition. -/
inductive NextPartition
  | null
  | running
  | valid
deriving DecidableEq, Repr

/-- Oracle for the external services a single data write consults. -/
structure WriteEnv where
  start_cb_ok : Bool
  next_update : NextPartition
  ota_begin_ok : Bool
  new_handle : Nat
  ota_write_ok : Bool
  timer_change_ok : Bool
  timer_start_ok : Bool
deriving DecidableEq, Repr

/-- The mutable OTA/write state of the translation unit:
`msc_write_active`, `ota_update_handle` (0 = none), whether
`ota_update_partition` is non-null, `ota_bytes_received`, and whether the
FreeRTOS inactivity timer is armed. -/
structure OtaState where
  msc_write_active : Bool
  ota_update_handle : Nat
  ota_has_partition : Bool
  ota_bytes_received : Nat
  timer_armed : Bool
deriving DecidableEq, Repr

/-- State right after `configure_virtual_disk`. -/
def initial_ota_state : OtaState :=
  { msc_write_active := false
    ota_update_handle := 0
    ota_has_partition := false
    ota_bytes_received := 0
    timer_armed := false }

/-- The external calls the write path and timer callback can make, in the
order they are issued. -/
inductive ExtCall
  | start_cb
  | ota_begin
  | ota_write
  | ota_end
  | set_boot
  | end_cb
deriving DecidableEq, Repr

/-- Firmware-detection phase of the data branch (lines 940-999).  Returns
the new state, the external calls made, and `some r` when the C code
`return`s early with `r`.  `msc_write_active` is set to `true` (line 998)
only on paths that fall through. -/
def detect_phase (chip : Nat) (s : OtaState) (buf : WriteBuffer) (env : WriteEnv) :
    OtaState × List ExtCall × Option Int :=
  if s.msc_write_active then (s, [], none)
  else if buf.magic = ESP_IMAGE_HEADER_MAGIC then
    if buf.magic = ESP_IMAGE_HEADER_MAGIC ∧ buf.chip_id ≠ ESP_CHIP_ID_INVALID ∧
        buf.chip_id = chip ∧ buf.app_magic_word = ESP_APP_DESC_MAGIC_WORD then
      if ¬ env.start_cb_ok then (s, [.start_cb], some (-1))
      else
        match env.next_update with
        | .null => ({ s with ota_has_partition := false }, [.start_cb], some (-1))
        | .running => ({ s with ota_has_partition := true }, [.start_cb], some (-1))
        | .valid =>
          if ¬ env.ota_begin_ok then
            -- ESP_RETURN_ON_ERROR_WRITE: end_cb fires only if a handle
            -- is already open (it is 0 on every reachable path here).
            if s.ota_update_handle ≠ 0 then
              ({ s with ota_update_handle := 0
                        ota_has_partition := false
                        ota_bytes_received := 0 },
                [.start_cb, .ota_begin, .end_cb], some (-1))
            else
              ({ s with ota_has_partition := true }, [.start_cb, .ota_begin], some (-1))
          else
            ({ s with ota_has_partition := true
                      ota_update_handle := env.new_handle
                      msc_write_active := true },
              [.start_cb, .ota_begin], none)
    else ({ s with msc_write_active := true }, [], none)
  else ({ s with msc_write_active := true }, [], none)

/-- OTA streaming phase (lines 1000-1011): if a handle is open, write the
buffer through it; `ota_bytes_received` is a 32-bit `size_t`. -/
def ota_write_phase (s : OtaState) (env : WriteEnv) (len : Nat) :
    OtaState × List ExtCall × Option Int :=
  if s.ota_update_handle ≠ 0 then
    if env.ota_write_ok then
      ({ s with ota_bytes_received := (s.ota_bytes_received + len) % 4294967296 },
        [.ota_write], none)
    else
      ({ s with ota_update_handle := 0
                ota_has_partition := false
                ota_bytes_received := 0 },
        [.ota_write, .end_cb], some (-1))
  else (s, [], none)

/-- Timer rearm phase (lines 1013-1032): `xTimerChangePeriod` (re)arms the
timer when the timer command queue accepts the command; only if the timer
is still inactive is `xTimerStart` tried, and on failure the OTA state is
reset, `end_cb` fires if a handle was open, and `-1` is returned. -/
def timer_restart_phase (s : OtaState) (env : WriteEnv) (len : Nat) :
    OtaState × List ExtCall × Int :=
  let s1 := if env.timer_change_ok then { s with timer_armed := true } else s
  if s1.timer_armed then (s1, [], (len : Int))
  else if env.timer_start_ok then ({ s1 with timer_armed := true }, [], (len : Int))
  else
    (({ s1 with ota_update_handle := 0
                ota_has_partition := false
                ota_bytes_received := 0 }),
      (if s1.ota_update_handle ≠ 0 then [.end_cb] else []), (-1 : Int))

/-- The whole data branch of `tud_msc_write10_cb` (lines 937-1033). -/
def write_data_step (chip : Nat) (s : OtaState) (buf : WriteBuffer) (env : WriteEnv) :
    OtaState × List ExtCall × Int :=
  match detect_phase chip s buf env with
  | (s1, c1, some r) => (s1, c1, r)
  | (s1, c1, none) =>
    match ota_write_phase s1 env buf.len with
    | (s2, c2, some r) => (s2, c1 ++ c2, r)
    | (s2, c2, none) =>
      match timer_restart_phase s2 env buf.len with
      | (s3, c3, r) => (s3, c1 ++ c2 ++ c3, r)

/-- `tud_msc_write10_cb` (lines 885-1035).  Writes to the boot sector, the
FAT region and the root directory only log (the root-directory branch
parses the entries for logging but changes no state) and return `bufsize`;
only writes at or past `FILE_CONTENT_FIRST_SECTOR` enter the OTA pipeline.
The file table is never consulted. -/
def tud_msc_write10_cb (g : Geometry) (chip : Nat)
    (_files : List fat_file_entry_t) (s : OtaState) (lba : Nat)
    (buf : WriteBuffer) (env : WriteEnv) : OtaState × List ExtCall × Int :=
  if lba = 0 then (s, [], (buf.len : Int))
  else if lba < ROOT_DIR_FIRST_SECTOR g then (s, [], (buf.len : Int))
  else if lba < FILE_CONTENT_FIRST_SECTOR g then (s, [], (buf.len : Int))
  else write_data_step chip s buf env

/-- `msc_write_timeout_cb` (lines 300-321): the timer stops itself; when a
partition and handle are present, `esp_ota_end` runs, on success
`esp_ota_set_boot_partition`, and `ota_update_end_cb` is invoked; in every
case handle, partition and byte counter are cleared.  `msc_write_active`
is left untouched. -/
def msc_write_timeout_cb (s : OtaState) (ota_end_ok : Bool) :
    OtaState × List ExtCall :=
  if s.ota_has_partition ∧ s.ota_update_handle ≠ 0 then
    ({ s with ota_update_handle := 0
              ota_has_partition := false
              ota_bytes_received := 0
              timer_armed := false },
      if ota_end_ok then [.ota_end, .set_boot, .end_cb] else [.ota_end, .end_cb])
  else
    ({ s with ota_update_handle := 0
              ota_has_partition := false
              ota_bytes_received := 0
              timer_armed := false }, [])

/-- Events driving the write-side state machine. -/
inductive MscEvent
  | write (lba : Nat) (buf : WriteBuffer) (env : WriteEnv)
  | timer_fire (ota_end_ok : Bool)
deriving Repr

/-- One event step. -/
def msc_step (g : Geometry) (chip : Nat) (files : List fat_file_entry_t)
    (s : OtaState) : MscEvent → OtaState × List ExtCall
  | .write lba buf env =>
      match tud_msc_write10_cb g chip files s lba buf env with
      | (s', calls, _r) => (s', calls)
  | .timer_fire ok => msc_write_timeout_cb s ok

/-- The final state of a run. -/
def msc_run (g : Geometry) (chip : Nat) (files : List fat_file_entry_t)
    (s : OtaState) : List MscEvent → OtaState
  | [] => s
  | e :: rest => msc_run g chip files (msc_step g chip files s e).1 rest

/-- The per-event call lists of a run. -/
def msc_trace_calls (g : Geometry) (chip : Nat) (files : List fat_file_entry_t)
    (s : OtaState) : List MscEvent → List (List ExtCall)
  | [] => []
  | e :: rest =>
      (msc_step g chip files s e).2 ::
        msc_trace_calls g chip files (msc_step g chip files s e).1 rest

/-- Occurrences of one external call in a call list. -/
def ccount (c : ExtCall) : List ExtCall → Nat
  | [] => 0
  | x :: t => (if x = c then 1 else 0) + ccount c t

/-! ### Spec-side definitions (for refinement-style statements) -/

/-- Rotation of an 8-bit value one position to the right, as the spec
describes the VFAT checksum (`c = rotate_right_8(c) + b (mod 256)`). -/
def rotate_right_8 (c : Nat) : Nat :=
  ((c % 256) >>> 1) ||| ((c &&& 1) <<< 7)

/-- The checksum exactly as the spec words it. -/
def spec_lfn_checksum (bytes : List Nat) : Nat :=
  bytes.foldl (fun c b => (rotate_right_8 c + b) % 256) 0

/-! ### Span-packing predicates -/

/-- Entry `b` follows entry `a` without a hole, in cluster and sector
space. -/
def spans_consecutive (a b : fat_file_entry_t) : Prop :=
  b.start_cluster = a.end_cluster + 1 ∧ b.start_sector = a.end_sector + 1

instance : DecidableRel spans_consecutive :=
  fun a b => inferInstanceAs
    (Decidable (b.start_cluster = a.end_cluster + 1 ∧ b.start_sector = a.end_sector + 1))

instance decidableBallOption {α : Type} (p : α → Prop) [DecidablePred p] :
    ∀ o : Option α, Decidable (∀ a ∈ o, p a)
  | none => isTrue (by simp)
  | some x => if h : p x then isTrue (by simpa) else isFalse (by simpa)


/-- The file table is packed contiguously: the first file starts at
cluster 2 / `FILE_CONTENT_FIRST_SECTOR`, consecutive files abut, and every
span length is `size / sector_size`. -/
def spans_packed (g : Geometry) (files : List fat_file_entry_t) : Prop :=
  (∀ f0 ∈ files.head?, f0.start_cluster = 2 ∧
      f0.start_sector = FILE_CONTENT_FIRST_SECTOR g) ∧
  List.Chain' spans_consecutive files ∧
  ∀ f ∈ files, f.end_cluster = f.start_cluster + f.size / g.sectorSize ∧
      f.end_sector = f.start_sector + f.size / g.sectorSize

instance spans_packed_decidable (g : Geometry) (files : List fat_file_entry_t) :
    Decidable (spans_packed g files) :=
  inferInstanceAs (Decidable
    ((∀ f0 ∈ files.head?, f0.start_cluster = 2 ∧
        f0.start_sector = FILE_CONTENT_FIRST_SECTOR g) ∧
      List.Chain' spans_consecutive files ∧
      ∀ f ∈ files, f.end_cluster = f.start_cluster + f.size / g.sectorSize ∧
        f.end_sector = f.start_sector + f.size / g.sectorSize))

/-! ### Concrete instances: the default 4 MB geometry of the spec's §8
scenarios (sector size 512, 8192 sectors, 1 reserved sector, 16 file
slots), and the concrete files/buffers the claims are exercised on. -/

/-- 4 MB disk: 512-byte sectors, 8192 sectors, 1 reserved, 16 file slots. -/
def g0 : Geometry := ⟨512, 8192, 1, 16⟩

/-- The bytes of the name "README.TXT". -/
def nmREADME : List Nat := [82, 69, 65, 68, 77, 69, 46, 84, 88, 84]

/-- A 1500-byte inline read-only file "README.TXT" filled with 0xAA. -/
def inpREADME : RegInput := ⟨nmREADME, fun _ => 170, 1500, true, false, true⟩

/-- The table after registering only "README.TXT". -/
def stREADME : VDiskState :=
  (register_virtual_file g0 (initial_vdisk g0) inpREADME).1

/-- The entry "README.TXT" produces; `stREADME.root_directory` is
definitionally `[fREADME]`. -/
def fREADME : fat_file_entry_t :=
  make_file_entry g0 inpREADME (prev_span (initial_vdisk g0)) 0

/-- The bytes of the name "READ.ONLY.TXT" (spec scenario 6). -/
def nmRO : List Nat := [82, 69, 65, 68, 46, 79, 78, 76, 89, 46, 84, 88, 84]

/-- A 100-byte read-only inline file "READ.ONLY.TXT". -/
def inpRO : RegInput := ⟨nmRO, fun _ => 65, 100, true, false, true⟩

/-- The table after registering only "READ.ONLY.TXT". -/
def stRO : VDiskState := (register_virtual_file g0 (initial_vdisk g0) inpRO).1

/-- The bytes of the name "a_very_long_name.bin" (spec scenario 3). -/
def nmLONG : List Nat :=
  [97, 95, 118, 101, 114, 121, 95, 108, 111, 110, 103, 95, 110, 97, 109, 101,
   46, 98, 105, 110]

/-- A writable inline file "a_very_long_name.bin" of 1000 bytes. -/
def inpLONG : RegInput := ⟨nmLONG, fun _ => 1, 1000, false, false, true⟩

/-- The table after registering only "a_very_long_name.bin". -/
def stLONG : VDiskState := (register_virtual_file g0 (initial_vdisk g0) inpLONG).1

/-- A 13-character dotless name "ABCDEFGHIJKLM": its printable name is 13
characters long, so the file needs 1 + 1 = 2 directory entries. -/
def nm13 : List Nat := [65, 66, 67, 68, 69, 70, 71, 72, 73, 74, 75, 76, 77]

/-- A writable inline file with the 13-character name. -/
def inp13 : RegInput := ⟨nm13, fun _ => 0, 100, false, false, true⟩

/-- The table after seven registrations of the 13-character-name file:
root-dir sector 0 then holds 1 (volume label) + 7*2 = 15 of its 16
directory entries. -/
def st7 : VDiskState := register_all g0 (List.replicate 7 inp13)

/-- A first-sector firmware buffer with valid magic, chip id 2 (ESP32-S2)
and app-descriptor magic word. -/
def validBuf : WriteBuffer := ⟨0xE9, 2, 0xABCD5432, 512⟩

/-- A data buffer that does not look like a firmware image. -/
def plainBuf : WriteBuffer := ⟨0x00, 0, 0, 512⟩

/-- All external services succeed; `esp_ota_begin` hands out handle 1. -/
def goodEnv : WriteEnv := ⟨true, .valid, true, 1, true, true, true⟩

/-- Like `goodEnv`, but the application vetoes the update in
`ota_update_start_cb`. -/
def vetoEnv : WriteEnv := ⟨false, .valid, true, 1, true, true, true⟩

/-- A full OTA round followed by a second attempt: a valid firmware write,
the 1 s inactivity timer firing (committing the update), then another
valid firmware first-sector write. -/
def c3trace : List MscEvent :=
  [.write 66 validBuf goodEnv, .timer_fire true, .write 66 validBuf goodEnv]

/-- An OTA transfer in flight (`Receiving`): handle 1 open on a valid
partition, 1024 bytes streamed, timer armed. -/
def receivingState : OtaState := ⟨true, 1, true, 1024, true⟩

/-- Potential function for the once-per-attempt argument: 1 while an OTA
handle is open, 0 otherwise. -/
def phi (s : OtaState) : Nat :=
  if s.ota_update_handle = 0 then 0 else 1

/-! ## Theorems -/

/-! ### C1 — FAT chain termination (claim vs. line 777) -/

/-- Claim C1 (code bug): for the registered file "README.TXT"
(clusters 2..4), the synthesized FAT holds `C+1` at clusters 2 and 3 as
claimed, but at the file's `end_cluster` 4 it holds 5 — not the claimed
`0xFFFF` end-of-chain marker — because line 777 compares the target
cluster against `file.end_sector` (68) instead of `file.end_cluster`. -/
theorem c1_fat_chain_end_marker_missing :
    (stREADME.root_directory.map (fun f => (f.start_cluster, f.end_cluster, f.end_sector)))
        = [(2, 4, 68)] ∧
    classify_lba g0 1 = SectorRegion.fat ∧
    fat_sector_entries g0 stREADME.root_directory 1 2 = 3 ∧
    fat_sector_entries g0 stREADME.root_directory 1 3 = 4 ∧
    fat_sector_entries g0 stREADME.root_directory 1 4 = 5 ∧
    fat_sector_entries g0 stREADME.root_directory 1 4 ≠ FAT_CLUSTER_END_OF_FILE := by
  decide

/-! ### C2 — writes to read-only files (claim vs. lines 885-1035) -/

/-- Claim C2 (code bug): "READ.ONLY.TXT" is registered read-only and
covers sector 66, yet `tud_msc_write10_cb` never consults the file table:
a WRITE(10) at LBA 66 returns `bufsize` (512), not the claimed `-1`. -/
theorem c2_read_only_write_not_rejected :
    (stRO.root_directory.map
        (fun f => (f.attributes &&& DIRENT_READ_ONLY, f.start_sector, f.end_sector)))
      = [(1, 66, 66)] ∧
    FILE_CONTENT_FIRST_SECTOR g0 ≤ 66 ∧
    (tud_msc_write10_cb g0 2 stRO.root_directory initial_ota_state 66 plainBuf goodEnv).2.2
      = 512 ∧
    (tud_msc_write10_cb g0 2 stRO.root_directory initial_ota_state 66 plainBuf goodEnv).2.2
      ≠ -1 := by
  decide

/-! ### C3 — firmware detection after a completed OTA attempt
(claim vs. lines 276, 940, 998) -/

/-- Claim C3 (code bug): after a full OTA attempt (valid firmware write,
then timer expiry committing it) the pipeline is back in `Idle`
(`ota_update_handle = 0`, no partition), but the next valid firmware write
performs no header inspection and no `ota_begin` — its call list is empty
and the handle stays 0 — because `msc_write_active` is set on the first
data write and never cleared. -/
theorem c3_idle_write_after_ota_not_inspected :
    msc_trace_calls g0 2 [] initial_ota_state c3trace =
      [[ExtCall.start_cb, ExtCall.ota_begin, ExtCall.ota_write],
       [ExtCall.ota_end, ExtCall.set_boot, ExtCall.end_cb],
       []] ∧
    (msc_run g0 2 [] initial_ota_state (c3trace.take 2)).ota_update_handle = 0 ∧
    (msc_run g0 2 [] initial_ota_state (c3trace.take 2)).ota_has_partition = false ∧
    (msc_run g0 2 [] initial_ota_state (c3trace.take 2)).msc_write_active = true ∧
    (msc_run g0 2 [] initial_ota_state c3trace).ota_update_handle = 0 := by
  decide

/-! ### C4 — byte-identical FAT copies (claim vs. line 738) -/

/-- Claim C4 (code bug): with "README.TXT" registered, reading the first
sector of FAT copy 0 (LBA 1 = `fat0_lba`) yields entry 0 = 0xFFF8, but the
corresponding sector of copy 1 (LBA 33 = `fat0_lba + sectors_per_fat`)
yields entry 0 = 0: line 738 tests `fat_table > fat_sectors` instead of
`>=`, so the first sector of the second copy is not remapped and the
copies differ even in their serialized bytes. -/
theorem c4_fat_copies_not_identical :
    FAT_COPY_0_FIRST_SECTOR g0 = 1 ∧
    SECTORS_PER_FAT_TABLE g0 = 32 ∧
    FAT_COPY_1_FIRST_SECTOR g0 = 33 ∧
    classify_lba g0 1 = SectorRegion.fat ∧
    classify_lba g0 33 = SectorRegion.fat ∧
    fat_sector_entries g0 stREADME.root_directory 1 0 = 0xFFF8 ∧
    fat_sector_entries g0 stREADME.root_directory 33 0 = 0 ∧
    le16_lo (fat_sector_entries g0 stREADME.root_directory 1 0) ≠
      le16_lo (fat_sector_entries g0 stREADME.root_directory 33 0) := by
  decide

/-! ### C5 — capacity rejection during slot assignment
(claim vs. lines 572-596) -/

/-- Claim C5 (code bug): after seven files that need two directory entries
each, root-dir sector 0 holds 15 of its 16 entries, so no sector has room
for another two-entry file; yet the eighth registration returns `ok`, the
file is appended with the zero-initialized `root_dir_sector = 0`, and the
usage counters are unchanged — the claimed `CapacityExceeded` rejection
does not exist in the slot-scan loop. -/
theorem c5_capacity_exhaustion_not_rejected :
    DIRENTRIES_PER_SECTOR g0 = 16 ∧
    ROOT_DIR_SECTOR_COUNT g0 = 1 ∧
    st7.entry_usage = [15] ∧
    entries_needed nm13 = 2 ∧
    find_root_dir_slot g0 st7.entry_usage 2 = none ∧
    (register_virtual_file g0 st7 inp13).2 = EspErr.ok ∧
    (register_virtual_file g0 st7 inp13).1.root_directory.length = 8 ∧
    (register_virtual_file g0 st7 inp13).1.entry_usage = [15] ∧
    ((register_virtual_file g0 st7 inp13).1.root_directory.getLast?).map
        (fun f => f.root_dir_sector) = some 0 := by
  decide

/-! ### C6 — the inactivity timer and OTA completion -/

/-- Claim C6 counterexample, refuting both clauses of the claim at
concrete inputs.  (i) Rearm clause: a file-data WRITE(10) whose firmware
image is vetoed by `ota_update_start_cb` returns `-1` before reaching the
timer code, so this data write does not (re)arm the inactivity timer —
contradicting "every file-data write (re)arms the 1000 ms inactivity
timer".  (ii) Expiry-sequence clause: when the timer fires in the
Receiving state but `esp_ota_end` fails, the callback skips
`esp_ota_set_boot_partition` (lines 311-315) and goes straight to
`ota_update_end_cb` — contradicting "ota_end(handle) is called, then
set_boot_partition(partition), then ota_update_end_cb". -/
theorem c6_vetoed_write_does_not_rearm_timer :
    (FILE_CONTENT_FIRST_SECTOR g0 ≤ 66 ∧
      (tud_msc_write10_cb g0 2 [] initial_ota_state 66 validBuf vetoEnv).2.2 = -1 ∧
      (tud_msc_write10_cb g0 2 [] initial_ota_state 66 validBuf vetoEnv).1.timer_armed
        = false) ∧
    (receivingState.ota_has_partition = true ∧
      receivingState.ota_update_handle ≠ 0 ∧
      (msc_write_timeout_cb receivingState false).2 =
        [ExtCall.ota_end, ExtCall.end_cb] ∧
      ExtCall.set_boot ∉ (msc_write_timeout_cb receivingState false).2) := by
  decide

/-! ### Shared helper lemmas -/

theorem sub32_of_le {a b : Nat} (hba : b ≤ a) (ha : a < 4294967296) :
    sub32 a b = a - b := by
  unfold sub32
  have hb : b < 4294967296 := lt_of_le_of_lt hba ha
  rw [Nat.mod_eq_of_lt hb]
  have h1 : a + 4294967296 - b = 4294967296 + (a - b) := by omega
  rw [h1, Nat.add_mod_left, Nat.mod_eq_of_lt (by omega)]

theorem classify_lba_data {g : Geometry} {lba : Nat}
    (hg : 0 < FILE_CONTENT_FIRST_SECTOR g)
    (hlba : FILE_CONTENT_FIRST_SECTOR g ≤ lba) :
    classify_lba g lba = SectorRegion.data := by
  have hr : ROOT_DIR_FIRST_SECTOR g ≤ FILE_CONTENT_FIRST_SECTOR g := by
    unfold FILE_CONTENT_FIRST_SECTOR; omega
  unfold classify_lba
  rw [if_neg (by omega), if_neg (by omega), if_neg (by omega)]

theorem read_data_go_no_match (g : Geometry) (lba offset bufsize : Nat) :
    ∀ (l : List fat_file_entry_t) (buf : Nat → Nat),
      (∀ f ∈ l, ¬ (f.start_sector ≤ lba ∧ lba ≤ f.end_sector)) →
      read_data_go g lba offset bufsize l buf = (buf, (bufsize : Int))
  | [], buf, _ => rfl
  | f :: rest, buf, h => by
      rw [read_data_go, if_neg (h f (List.mem_cons_self f rest))]
      exact read_data_go_no_match g lba offset bufsize rest buf
        (fun x hx => h x (List.mem_cons_of_mem f hx))

theorem read_data_go_skip (g : Geometry) (lba offset bufsize : Nat) :
    ∀ (l1 rest : List fat_file_entry_t) (buf : Nat → Nat),
      (∀ f ∈ l1, ¬ (f.start_sector ≤ lba ∧ lba ≤ f.end_sector)) →
      read_data_go g lba offset bufsize (l1 ++ rest) buf =
        read_data_go g lba offset bufsize rest buf
  | [], rest, buf, _ => rfl
  | f :: l1, rest, buf, h => by
      rw [List.cons_append, read_data_go, if_neg (h f (List.mem_cons_self f l1))]
      exact read_data_go_skip g lba offset bufsize l1 rest buf
        (fun x hx => h x (List.mem_cons_of_mem f hx))

theorem chain_start_mono :
    ∀ (l : List fat_file_entry_t), List.Chain' spans_consecutive l →
      (∀ f ∈ l, f.start_sector ≤ f.end_sector) →
      ∀ h0 ∈ l.head?, ∀ y ∈ l, h0.start_sector ≤ y.start_sector := by
  intro l
  induction l with
  | nil => intro _ _ h0 hh0; simp at hh0
  | cons a t ih =>
    intro hchain hse h0 hh0 y hy
    simp only [List.head?_cons, Option.mem_def, Option.some_inj] at hh0
    subst hh0
    rcases List.mem_cons.mp hy with rfl | hyt
    · exact le_refl _
    · cases t with
      | nil => simp at hyt
      | cons b t' =>
        rw [List.chain'_cons] at hchain
        have hb : b.start_sector ≤ y.start_sector :=
          ih hchain.2 (fun f hf => hse f (List.mem_cons_of_mem a hf)) b rfl y hyt
        have hab : b.start_sector = a.end_sector + 1 := hchain.1.2
        have haa : a.start_sector ≤ a.end_sector := hse a (List.mem_cons_self a _)
        omega

theorem packed_split :
    ∀ (l : List fat_file_entry_t), List.Chain' spans_consecutive l →
      (∀ f ∈ l, f.start_sector ≤ f.end_sector) →
      ∀ f ∈ l, ∃ l1 l2, l = l1 ++ f :: l2 ∧
        (∀ x ∈ l1, x.end_sector < f.start_sector) ∧
        (∀ y ∈ l2, f.end_sector < y.start_sector) := by
  intro l
  induction l with
  | nil => intro _ _ f hf; simp at hf
  | cons a t ih =>
    intro hchain hse f hf
    rcases List.mem_cons.mp hf with rfl | hft
    · refine ⟨[], t, rfl, by simp, ?_⟩
      intro y hy
      cases t with
      | nil => simp at hy
      | cons b t' =>
        rw [List.chain'_cons] at hchain
        have hb : b.start_sector ≤ y.start_sector :=
          chain_start_mono (b :: t') hchain.2
            (fun x hx => hse x (List.mem_cons_of_mem f hx)) b rfl y hy
        have hab : b.start_sector = f.end_sector + 1 := hchain.1.2
        omega
    · have hchain' : List.Chain' spans_consecutive t := hchain.tail
      obtain ⟨l1, l2, ht, hl1, hl2⟩ :=
        ih hchain' (fun x hx => hse x (List.mem_cons_of_mem a hx)) f hft
      refine ⟨a :: l1, l2, by rw [List.cons_append, ht], ?_, hl2⟩
      intro x hx
      rcases List.mem_cons.mp hx with rfl | hxl1
      · -- a's end lies before f's start
        cases l1 with
        | nil =>
          subst ht
          rw [List.nil_append, List.chain'_cons] at hchain
          have : f.start_sector = x.end_sector + 1 := hchain.1.2
          omega
        | cons x0 l1' =>
          subst ht
          rw [List.cons_append, List.chain'_cons] at hchain
          have h0 : x0.start_sector = x.end_sector + 1 := hchain.1.2
          have h1 : x0.end_sector < f.start_sector := hl1 x0 (List.mem_cons_self x0 l1')
          have h2 : x0.start_sector ≤ x0.end_sector := by
            refine hse x0 (List.mem_cons_of_mem x ?_)
            exact List.mem_append_left _ (List.mem_cons_self x0 l1')
          omega
      · exact hl1 x hxl1

/-! ### C10 — reads of uncovered data-region sectors -/

/-- Claim C10 (confirmed): a READ(10) at an LBA at or past
`FILE_CONTENT_FIRST_SECTOR` that no registered file covers takes the
data branch, returns `bufsize`, and leaves the zeroed buffer untouched. -/
theorem c10_uncovered_data_sector_reads_zero (g : Geometry)
    (files : List fat_file_entry_t) (lba offset bufsize : Nat)
    (hg : 0 < FILE_CONTENT_FIRST_SECTOR g)
    (hlba : FILE_CONTENT_FIRST_SECTOR g ≤ lba)
    (hout : ∀ f ∈ files, ¬ (f.start_sector ≤ lba ∧ lba ≤ f.end_sector)) :
    classify_lba g lba = SectorRegion.data ∧
    (tud_msc_read10_data g files lba offset bufsize).2 = (bufsize : Int) ∧
    ∀ i, (tud_msc_read10_data g files lba offset bufsize).1 i = 0 := by
  have h := read_data_go_no_match g lba offset bufsize files (fun _ => 0) hout
  unfold tud_msc_read10_data
  rw [h]
  exact ⟨classify_lba_data hg hlba, rfl, fun _ => rfl⟩

/-- Witness for C10: on the default disk with only "README.TXT"
(sectors 66..68), reading LBA 69 returns 512 and an all-zero buffer. -/
theorem c10_uncovered_data_sector_reads_zero_witness :
    classify_lba g0 69 = SectorRegion.data ∧
    (tud_msc_read10_data g0 stREADME.root_directory 69 0 512).2 = (512 : Int) ∧
    ∀ i, (tud_msc_read10_data g0 stREADME.root_directory 69 0 512).1 i = 0 :=
  c10_uncovered_data_sector_reads_zero g0 stREADME.root_directory 69 0 512
    (by decide) (by decide) (by decide)

/-! ### C7 — partial final sector of a file -/

theorem read_data_go_cons_match (g : Geometry) (lba offset bufsize : Nat)
    (f : fat_file_entry_t) (rest : List fat_file_entry_t) (buf : Nat → Nat)
    (hcov : f.start_sector ≤ lba ∧ lba ≤ f.end_sector)
    (hok : ¬ (f.has_partition ∧ ¬ f.partition_read_ok)) :
    read_data_go g lba offset bufsize (f :: rest) buf =
      read_data_go g lba offset bufsize rest
        (read_apply_file g lba offset bufsize f buf) := by
  rw [read_data_go, if_pos hcov, if_neg hok]

theorem read_apply_file_last_sector (g : Geometry) (f : fat_file_entry_t)
    (buf : Nat → Nat)
    (hss : 0 < g.sectorSize)
    (hsz32 : f.size < 4294967296)
    (hspan : f.end_sector = f.start_sector + f.size / g.sectorSize) :
    read_apply_file g f.end_sector 0 g.sectorSize f buf =
      fun i => if i < f.size % g.sectorSize then
        f.contentAt (f.size / g.sectorSize * g.sectorSize + i) else buf i := by
  have hfe : f.start_sector ≤ f.end_sector := by
    rw [hspan]; exact Nat.le_add_right _ _
  have hq : f.end_sector - f.start_sector = f.size / g.sectorSize := by
    rw [hspan]; exact Nat.add_sub_cancel_left f.start_sector (f.size / g.sectorSize)
  have hle : f.size / g.sectorSize * g.sectorSize ≤ f.size := Nat.div_mul_le_self _ _
  have hdm : f.size / g.sectorSize * g.sectorSize + f.size % g.sectorSize = f.size :=
    Nat.div_add_mod' f.size g.sectorSize
  have hsub : sub32 f.size (f.size / g.sectorSize * g.sectorSize) =
      f.size % g.sectorSize := by
    rw [sub32_of_le hle hsz32]
    generalize hgen : f.size / g.sectorSize * g.sectorSize = t at hdm ⊢
    omega
  unfold read_apply_file
  rw [if_pos ⟨hfe, le_refl _⟩]
  funext i
  simp only [hq, Nat.add_zero, hsub]
  rw [if_pos (show g.sectorSize > f.size % g.sectorSize from Nat.mod_lt f.size hss)]

/-- Claim C7 (confirmed): for a registered file in a packed table whose
size is not a sector multiple (and whose content source is readable),
reading its last data sector — `end_sector`, at offset 0 with a
sector-sized buffer — returns `bufsize` and yields exactly
`size mod sector_size` content bytes (the file's final bytes) followed by
zeros; no byte of any other file appears. -/
theorem c7_partial_last_sector_read (g : Geometry)
    (files : List fat_file_entry_t) (f : fat_file_entry_t)
    (hpack : spans_packed g files) (hf : f ∈ files)
    (hss : 0 < g.sectorSize)
    (hpart : f.has_partition = false ∨ f.partition_read_ok = true)
    (hsz32 : f.size < 4294967296)
    (_hmod : f.size % g.sectorSize ≠ 0) :
    (tud_msc_read10_data g files f.end_sector 0 g.sectorSize).2 = (g.sectorSize : Int) ∧
    ∀ i, (tud_msc_read10_data g files f.end_sector 0 g.sectorSize).1 i =
      if i < f.size % g.sectorSize then
        f.contentAt (f.size / g.sectorSize * g.sectorSize + i) else 0 := by
  obtain ⟨hhead, hchain, hends⟩ := hpack
  have hse : ∀ x ∈ files, x.start_sector ≤ x.end_sector := by
    intro x hx
    rw [(hends x hx).2]
    exact Nat.le_add_right _ _
  obtain ⟨l1, l2, hsplit, h1, h2⟩ := packed_split files hchain hse f hf
  have hfe : f.start_sector ≤ f.end_sector := hse f hf
  have hno1 : ∀ x ∈ l1, ¬ (x.start_sector ≤ f.end_sector ∧ f.end_sector ≤ x.end_sector) := by
    intro x hx hc
    have := h1 x hx
    omega
  have hno2 : ∀ y ∈ l2, ¬ (y.start_sector ≤ f.end_sector ∧ f.end_sector ≤ y.end_sector) := by
    intro y hy hc
    have := h2 y hy
    omega
  have hok : ¬ (f.has_partition ∧ ¬ f.partition_read_ok) := by
    rcases hpart with h | h <;> simp [h]
  unfold tud_msc_read10_data
  rw [hsplit, read_data_go_skip g _ 0 _ l1 _ _ hno1,
      read_data_go_cons_match g _ 0 _ f l2 _ ⟨hfe, le_refl _⟩ hok,
      read_data_go_no_match g _ 0 _ l2 _ hno2,
      read_apply_file_last_sector g f _ hss hsz32 (hends f hf).2]
  exact ⟨rfl, fun i => rfl⟩

/-- Witness for C7: the 1500-byte "README.TXT" (last sector 68, size mod
512 = 476) reads back as its final 476 content bytes followed by zeros,
with return value 512. -/
theorem c7_partial_last_sector_read_witness :
    fREADME.end_sector = 68 ∧ fREADME.size % g0.sectorSize = 476 ∧
    ((tud_msc_read10_data g0 stREADME.root_directory fREADME.end_sector 0
        g0.sectorSize).2 = (g0.sectorSize : Int) ∧
      ∀ i, (tud_msc_read10_data g0 stREADME.root_directory fREADME.end_sector 0
          g0.sectorSize).1 i =
        if i < fREADME.size % g0.sectorSize then
          fREADME.contentAt (fREADME.size / g0.sectorSize * g0.sectorSize + i)
        else 0) := by
  refine ⟨by decide, by decide, ?_⟩
  exact c7_partial_last_sector_read g0 stREADME.root_directory fREADME
    ⟨by decide, List.chain'_singleton fREADME, by decide⟩
    (List.mem_cons_self fREADME []) (by decide) (by decide)
    (by decide) (by decide)

/-! ### C8 — deterministic contiguous packing of file spans -/

theorem make_file_entry_span_none (g : Geometry) (inp : RegInput) (rds : Nat) :
    (make_file_entry g inp none rds).start_sector = FILE_CONTENT_FIRST_SECTOR g ∧
    (make_file_entry g inp none rds).start_cluster = 2 ∧
    (make_file_entry g inp none rds).end_sector =
      (FILE_CONTENT_FIRST_SECTOR g + inp.size / g.sectorSize) % 4294967296 ∧
    (make_file_entry g inp none rds).end_cluster =
      (2 + inp.size / g.sectorSize) % 65536 ∧
    (make_file_entry g inp none rds).size = inp.size :=
  ⟨rfl, rfl, rfl, rfl, rfl⟩

theorem make_file_entry_span_some (g : Geometry) (inp : RegInput) (rds ps pc : Nat) :
    (make_file_entry g inp (some (ps, pc)) rds).start_sector = (ps + 1) % 4294967296 ∧
    (make_file_entry g inp (some (ps, pc)) rds).start_cluster = (pc + 1) % 65536 ∧
    (make_file_entry g inp (some (ps, pc)) rds).end_sector =
      ((ps + 1) % 4294967296 + inp.size / g.sectorSize) % 4294967296 ∧
    (make_file_entry g inp (some (ps, pc)) rds).end_cluster =
      ((pc + 1) % 65536 + inp.size / g.sectorSize) % 65536 ∧
    (make_file_entry g inp (some (ps, pc)) rds).size = inp.size :=
  ⟨rfl, rfl, rfl, rfl, rfl⟩

theorem register_ok_table (g : Geometry) (s : VDiskState) (inp : RegInput)
    (hcap : ¬ s.root_directory.length > g.fileCount - 1) :
    ∃ rds, (register_virtual_file g s inp).1.root_directory =
      s.root_directory ++ [make_file_entry g inp (prev_span s) rds] :=
  ⟨(find_root_dir_slot g s.entry_usage
      (entries_needed (split_name inp.name).2.2)).getD 0,
    by simp only [register_virtual_file, if_neg hcap]⟩

theorem register_rejected_table (g : Geometry) (s : VDiskState) (inp : RegInput)
    (hcap : s.root_directory.length > g.fileCount - 1) :
    (register_virtual_file g s inp).1.root_directory = s.root_directory := by
  simp only [register_virtual_file, if_pos hcap]

/-- Claim C8 (confirmed): the empty table is packed, and registration
preserves packing — absent `uint16_t`/`uint32_t` overflow of the span
fields, the first file starts at cluster 2 and sector
`FILE_CONTENT_FIRST_SECTOR`, each later file starts right after its
predecessor in both cluster and sector space, and every file satisfies
`end_cluster - start_cluster = size / sector_size`. -/
theorem c8_spans_packed_invariant (g : Geometry) :
    spans_packed g ([] : List fat_file_entry_t) ∧
    ∀ (s : VDiskState) (inp : RegInput),
      spans_packed g s.root_directory →
      (match prev_span s with
       | none => 2 + inp.size / g.sectorSize < 65536 ∧
           FILE_CONTENT_FIRST_SECTOR g + inp.size / g.sectorSize < 4294967296
       | some (prevSec, prevClu) => prevClu + 1 + inp.size / g.sectorSize < 65536 ∧
           prevSec + 1 + inp.size / g.sectorSize < 4294967296) →
      spans_packed g (register_virtual_file g s inp).1.root_directory ∧
      ∀ f ∈ (register_virtual_file g s inp).1.root_directory,
        f.end_cluster - f.start_cluster = f.size / g.sectorSize := by
  have hsub : ∀ (l : List fat_file_entry_t), spans_packed g l →
      ∀ f ∈ l, f.end_cluster - f.start_cluster = f.size / g.sectorSize := by
    intro l hl f hf
    rw [(hl.2.2 f hf).1]
    exact Nat.add_sub_cancel_left _ _
  refine ⟨⟨by simp, List.chain'_nil, by simp⟩, ?_⟩
  intro s inp hpack hbound
  by_cases hcap : s.root_directory.length > g.fileCount - 1
  · rw [register_rejected_table g s inp hcap]
    exact ⟨hpack, hsub _ hpack⟩
  · obtain ⟨rds, hreg⟩ := register_ok_table g s inp hcap
    rw [hreg]
    cases hgl : s.root_directory.getLast? with
    | none =>
      have hnil : s.root_directory = [] := List.getLast?_eq_none_iff.mp hgl
      have hps : prev_span s = none := by simp [prev_span, hgl]
      rw [hps] at hbound
      obtain ⟨hb1, hb2⟩ := hbound
      obtain ⟨hss, hsc, hes, hec, hsz⟩ := make_file_entry_span_none g inp rds
      rw [hps, hnil, List.nil_append]
      have hes' : (make_file_entry g inp none rds).end_sector =
          FILE_CONTENT_FIRST_SECTOR g + inp.size / g.sectorSize := by
        rw [hes]; exact Nat.mod_eq_of_lt hb2
      have hec' : (make_file_entry g inp none rds).end_cluster =
          2 + inp.size / g.sectorSize := by
        rw [hec]; exact Nat.mod_eq_of_lt hb1
      have hpk : spans_packed g [make_file_entry g inp none rds] := by
        refine ⟨?_, List.chain'_singleton _, ?_⟩
        · intro f0 hf0
          simp only [List.head?_cons, Option.mem_def, Option.some_inj] at hf0
          subst hf0
          exact ⟨hsc, hss⟩
        · intro f hf
          simp only [List.mem_singleton] at hf
          subst hf
          rw [hec', hes', hsc, hss, hsz]
          exact ⟨rfl, rfl⟩
      exact ⟨hpk, hsub _ hpk⟩
    | some last =>
      have hne : s.root_directory ≠ [] := by
        intro h
        rw [h] at hgl
        cases hgl
      have hps : prev_span s = some (last.end_sector, last.end_cluster) := by
        simp [prev_span, hgl]
      rw [hps] at hbound ⊢
      obtain ⟨hb1, hb2⟩ := hbound
      obtain ⟨hss, hsc, hes, hec, hsz⟩ :=
        make_file_entry_span_some g inp rds last.end_sector last.end_cluster
      generalize hk : inp.size / g.sectorSize = k at hb1 hb2 hes hec
      have hss' : (make_file_entry g inp
            (some (last.end_sector, last.end_cluster)) rds).start_sector =
          last.end_sector + 1 := by
        rw [hss]; exact Nat.mod_eq_of_lt (by omega)
      have hsc' : (make_file_entry g inp
            (some (last.end_sector, last.end_cluster)) rds).start_cluster =
          last.end_cluster + 1 := by
        rw [hsc]; exact Nat.mod_eq_of_lt (by omega)
      have hes' : (make_file_entry g inp
            (some (last.end_sector, last.end_cluster)) rds).end_sector =
          (last.end_sector + 1) + k := by
        rw [hes, Nat.mod_eq_of_lt (show last.end_sector + 1 < 4294967296 by omega)]
        exact Nat.mod_eq_of_lt (by omega)
      have hec' : (make_file_entry g inp
            (some (last.end_sector, last.end_cluster)) rds).end_cluster =
          (last.end_cluster + 1) + k := by
        rw [hec, Nat.mod_eq_of_lt (show last.end_cluster + 1 < 65536 by omega)]
        exact Nat.mod_eq_of_lt (by omega)
      have hpk : spans_packed g (s.root_directory ++
          [make_file_entry g inp (some (last.end_sector, last.end_cluster)) rds]) := by
        refine ⟨?_, ?_, ?_⟩
        · rw [List.head?_append_of_ne_nil _ hne]
          exact hpack.1
        · rw [List.chain'_append]
          refine ⟨hpack.2.1, List.chain'_singleton _, ?_⟩
          intro x hx y hy
          rw [hgl, Option.mem_def, Option.some_inj] at hx
          simp only [List.head?_cons, Option.mem_def, Option.some_inj] at hy
          subst hx
          subst hy
          exact ⟨by rw [hsc'], by rw [hss']⟩
        · intro f hf
          rcases List.mem_append.mp hf with hold | hnew
          · exact hpack.2.2 f hold
          · simp only [List.mem_singleton] at hnew
            subst hnew
            rw [hec', hes', hsc', hss', hsz, hk]
            exact ⟨rfl, rfl⟩
      exact ⟨hpk, hsub _ hpk⟩

/-- Witness for C8: starting from the packed single-file table of
"README.TXT" (end sector 68 / end cluster 4), registering
"a_very_long_name.bin" keeps the table packed. -/
theorem c8_spans_packed_invariant_witness :
    spans_packed g0 ([] : List fat_file_entry_t) ∧
    spans_packed g0 (register_virtual_file g0 stREADME inpLONG).1.root_directory ∧
    ∀ f ∈ (register_virtual_file g0 stREADME inpLONG).1.root_directory,
      f.end_cluster - f.start_cluster = f.size / g0.sectorSize := by
  have h := (c8_spans_packed_invariant g0).2 stREADME inpLONG
    ⟨by decide, List.chain'_singleton fREADME, by decide⟩
    (show (4 : Nat) + 1 + inpLONG.size / g0.sectorSize < 65536 ∧
        (68 : Nat) + 1 + inpLONG.size / g0.sectorSize < 4294967296 by decide)
  exact ⟨(c8_spans_packed_invariant g0).1, h.1, h.2⟩


/-! ### C9 — VFAT long-filename chains -/

set_option maxRecDepth 4096 in
theorem lfn_rot_eq : ∀ c < 256, ((c &&& 1) <<< 7) + (c >>> 1) = rotate_right_8 c := by
  decide

theorem lfn_checksum_step_eq (c b : Nat) (hc : c < 256) :
    lfn_checksum_step c b = (rotate_right_8 c + b) % 256 := by
  unfold lfn_checksum_step
  rw [lfn_rot_eq c hc]

theorem lfn_checksum_eq_spec (bytes : List Nat) :
    lfn_checksum bytes = spec_lfn_checksum bytes := by
  unfold lfn_checksum spec_lfn_checksum
  suffices h : ∀ c < 256, bytes.foldl lfn_checksum_step c =
      bytes.foldl (fun c b => (rotate_right_8 c + b) % 256) c from
    h 0 (by decide)
  induction bytes with
  | nil => intro c _; rfl
  | cons b t ih =>
    intro c hc
    simp only [List.foldl_cons]
    rw [lfn_checksum_step_eq c b hc]
    exact ih _ (Nat.mod_lt _ (by decide))

theorem pad13_length (l : List Nat) (h : l.length ≤ 13) :
    (pad13 l).length = 13 := by
  simp only [pad13]
  split <;> simp <;> omega

theorem build_lfn_list_mem_shape :
    ∀ (fuel : Nat) (pn : List Nat), pn.length ≤ fuel → ∀ (cs seq : Nat),
      ∀ p ∈ build_lfn_list cs fuel pn seq,
        p.checksum = cs ∧ p.attributes = 15 ∧ p.entry_type = 0 ∧
        p.start_cluster = 0 ∧
        p.name1.length = 5 ∧ p.name2.length = 6 ∧ p.name3.length = 2 := by
  intro fuel
  induction fuel with
  | zero =>
    intro pn _ cs seq p hp
    simp [build_lfn_list] at hp
  | succ n ih =>
    intro pn hlen cs seq p hp
    cases pn with
    | nil => simp [build_lfn_list] at hp
    | cons b rest =>
      rw [build_lfn_list] at hp
      rcases List.mem_cons.mp hp with rfl | hp'
      · have hlen13 : ((b :: rest).take 13).length ≤ 13 := by
          rw [List.length_take]; omega
        have hp13 := pad13_length _ hlen13
        refine ⟨rfl, rfl, rfl, rfl, ?_, ?_, ?_⟩
        · show (((pad13 ((b :: rest).take 13)).take 5).map lfn_unit).length = 5
          rw [List.length_map, List.length_take, hp13]
          omega
        · show ((((pad13 ((b :: rest).take 13)).drop 5).take 6).map lfn_unit).length = 6
          rw [List.length_map, List.length_take, List.length_drop, hp13]
          omega
        · show (((pad13 ((b :: rest).take 13)).drop 11).map lfn_unit).length = 2
          rw [List.length_map, List.length_drop, hp13]
      · refine ih ((b :: rest).drop 13) ?_ cs (seq + 1) p hp'
        rw [List.length_drop]
        simp only [List.length_cons] at hlen ⊢
        omega

theorem build_lfn_list_map_seq :
    ∀ (fuel : Nat) (pn : List Nat), pn.length ≤ fuel → ∀ (cs seq : Nat),
      (build_lfn_list cs fuel pn seq).map (fun p => p.sequence) =
        List.range' seq ((pn.length + 12) / 13) := by
  intro fuel
  induction fuel with
  | zero =>
    intro pn hlen cs seq
    have h0 : pn.length = 0 := Nat.le_zero.mp hlen
    rw [h0]
    simp [build_lfn_list]
  | succ n ih =>
    intro pn hlen cs seq
    cases pn with
    | nil => simp [build_lfn_list]
    | cons b rest =>
      rw [build_lfn_list]
      have hlen' : ((b :: rest).drop 13).length ≤ n := by
        rw [List.length_drop]
        simp only [List.length_cons] at hlen ⊢
        omega
      have hrec := ih ((b :: rest).drop 13) hlen' cs (seq + 1)
      simp only [List.map_cons, hrec, List.length_drop]
      have hn : ((b :: rest).length + 12) / 13 =
          (((b :: rest).length - 13 + 12) / 13) + 1 := by
        simp only [List.length_cons]
        omega
      rw [hn, List.range'_succ]
      rfl

theorem build_lfn_list_length (fuel : Nat) (pn : List Nat)
    (hlen : pn.length ≤ fuel) (cs seq : Nat) :
    (build_lfn_list cs fuel pn seq).length = (pn.length + 12) / 13 := by
  have h := build_lfn_list_map_seq fuel pn hlen cs seq
  have h2 := congrArg List.length h
  rwa [List.length_map, List.length_range'] at h2

theorem make_lfn_parts_mem (cs : Nat) (pn : List Nat) (p : fat_long_filename_t)
    (hp : p ∈ make_lfn_parts cs pn) :
    p.checksum = cs ∧ p.attributes = 15 ∧ p.entry_type = 0 ∧
    p.start_cluster = 0 ∧
    p.name1.length = 5 ∧ p.name2.length = 6 ∧ p.name3.length = 2 := by
  unfold make_lfn_parts at hp
  cases hrev : (build_lfn_list cs pn.length pn 1).reverse with
  | nil =>
    rw [hrev] at hp
    simp [mark_last_in_sequence] at hp
  | cons h t =>
    rw [hrev] at hp
    have hmemrev : ∀ q ∈ h :: t, q ∈ build_lfn_list cs pn.length pn 1 := by
      intro q hq
      rw [← List.mem_reverse, hrev]
      exact hq
    simp only [mark_last_in_sequence] at hp
    rcases List.mem_cons.mp hp with rfl | hpt
    · exact build_lfn_list_mem_shape pn.length pn le_rfl cs 1 h
        (hmemrev h (List.mem_cons_self h t))
    · exact build_lfn_list_mem_shape pn.length pn le_rfl cs 1 p
        (hmemrev p (List.mem_cons_of_mem h hpt))

theorem make_lfn_parts_length (cs : Nat) (pn : List Nat) :
    (make_lfn_parts cs pn).length = (pn.length + 12) / 13 := by
  unfold make_lfn_parts
  have hb := build_lfn_list_length pn.length pn le_rfl cs 1
  cases hrev : (build_lfn_list cs pn.length pn 1).reverse with
  | nil =>
    have h2 := congrArg List.length hrev
    rw [List.length_reverse, hb] at h2
    simp [mark_last_in_sequence, h2.symm]
  | cons h t =>
    have h2 := congrArg List.length hrev
    rw [List.length_reverse, hb] at h2
    simp only [mark_last_in_sequence, List.length_cons]
    simp only [List.length_cons] at h2
    omega

theorem make_lfn_parts_map_seq (cs : Nat) (pn : List Nat) (hne : pn ≠ []) :
    (make_lfn_parts cs pn).map (fun p => p.sequence) =
      (((pn.length + 12) / 13) ||| 64) ::
        (List.range' 1 ((pn.length + 12) / 13 - 1)).reverse := by
  have hlen0 : pn.length ≠ 0 := fun h => hne (List.length_eq_zero.mp h)
  obtain ⟨m, hm⟩ : ∃ m, (pn.length + 12) / 13 = m + 1 :=
    ⟨(pn.length + 12) / 13 - 1, by omega⟩
  have h1 : (build_lfn_list cs pn.length pn 1).map (fun p => p.sequence) =
      List.range' 1 ((pn.length + 12) / 13) :=
    build_lfn_list_map_seq pn.length pn le_rfl cs 1
  have hmaprev : ((build_lfn_list cs pn.length pn 1).reverse).map
        (fun p => p.sequence) = (m + 1) :: (List.range' 1 m).reverse := by
    rw [List.map_reverse, h1, hm, List.range'_concat, List.reverse_append]
    simp [Nat.add_comm]
  unfold make_lfn_parts
  cases hrev : (build_lfn_list cs pn.length pn 1).reverse with
  | nil => rw [hrev] at hmaprev; simp at hmaprev
  | cons h t =>
    rw [hrev] at hmaprev
    simp only [List.map_cons, List.cons.injEq] at hmaprev
    obtain ⟨hseq, htail⟩ := hmaprev
    simp only [mark_last_in_sequence, List.map_cons, hseq, htail, hm]
    rw [Nat.add_sub_cancel]

theorem root_dir_entries_decompose (files : List fat_file_entry_t)
    (label : List Nat) (f : fat_file_entry_t) (hf : f ∈ files) :
    ∃ pre post, root_dir_entries files label f.root_dir_sector =
      pre ++ f.lfn_parts.map DirEntry32.lfn ++
        [DirEntry32.short ((space_padded_memcpy 11 (f.name ++ f.ext)).take 8)
          (space_padded_memcpy 3 f.ext) f.attributes f.size f.start_cluster
          0x4d99 0x4d99] ++ post := by
  have hfil : f ∈ files.filter (fun x => x.root_dir_sector = f.root_dir_sector) := by
    rw [List.mem_filter]
    exact ⟨hf, by simp⟩
  obtain ⟨l1, l2, hsplit⟩ := List.append_of_mem hfil
  refine ⟨(if f.root_dir_sector = 0 then
      [DirEntry32.volume label (DIRENT_ARCHIVE ||| DIRENT_VOLUME_LABEL)] else []) ++
      l1.flatMap file_dir_entries, l2.flatMap file_dir_entries, ?_⟩
  unfold root_dir_entries
  rw [hsplit, List.flatMap_append, List.flatMap_cons]
  simp only [file_dir_entries, List.append_assoc]

/-- Claim C9 (confirmed): for every file registration that succeeds and
produces a printable name longer than 12 characters, every emitted LFN
fragment carries the checksum `c = rotate_right_8(c) + b (mod 256)` folded
over the 11 mangled short-name bytes, each fragment holds 5 + 6 + 2 = 13
UTF-16 code units, the fragment vector is ordered last-fragment-first
(sequences `n ||| 0x40, n-1, ..., 1`), and in any synthesized
root-directory sector the fragments appear in exactly that order
immediately before the file's 8.3 entry. -/
theorem c9_lfn_chain_structure (g : Geometry) (s : VDiskState) (inp : RegInput)
    (hok : (register_virtual_file g s inp).2 = EspErr.ok) :
    ∀ f ∈ (register_virtual_file g s inp).1.root_directory.getLast?,
      12 < f.printable_name.length →
      (∀ p ∈ f.lfn_parts, p.checksum = spec_lfn_checksum (f.name ++ f.ext)) ∧
      (∀ p ∈ f.lfn_parts,
        p.name1.length = 5 ∧ p.name2.length = 6 ∧ p.name3.length = 2) ∧
      (f.lfn_parts.map (fun p => p.sequence) =
        (f.lfn_parts.length ||| 64) ::
          (List.range' 1 (f.lfn_parts.length - 1)).reverse) ∧
      (∀ (files : List fat_file_entry_t) (label : List Nat), f ∈ files →
        ∃ pre post, root_dir_entries files label f.root_dir_sector =
          pre ++ f.lfn_parts.map DirEntry32.lfn ++
            [DirEntry32.short ((space_padded_memcpy 11 (f.name ++ f.ext)).take 8)
              (space_padded_memcpy 3 f.ext) f.attributes f.size f.start_cluster
              0x4d99 0x4d99] ++ post) := by
  by_cases hcap : s.root_directory.length > g.fileCount - 1
  · rw [register_virtual_file, if_pos hcap] at hok
    cases hok
  · obtain ⟨rds, hreg⟩ := register_ok_table g s inp hcap
    rw [hreg]
    intro f hf hlong
    rw [List.getLast?_concat, Option.mem_def, Option.some_inj] at hf
    subst hf
    set fnew := make_file_entry g inp (prev_span s) rds with hfnew
    have hpn : fnew.printable_name = (split_name inp.name).2.2 := by
      cases hprev : prev_span s <;> rw [hfnew, hprev] <;> rfl
    have hlong' : 12 < (split_name inp.name).2.2.length := by
      rw [← hpn]; exact hlong
    have hname : fnew.name = (((split_name inp.name).1.set 6 126).set 7 49) := by
      cases hprev : prev_span s <;> rw [hfnew, hprev] <;>
        simp only [make_file_entry] <;> rw [if_pos hlong']
    have hext : fnew.ext = (split_name inp.name).2.1 := by
      cases hprev : prev_span s <;> rw [hfnew, hprev] <;> rfl
    have hlfn : fnew.lfn_parts =
        make_lfn_parts
          (lfn_checksum ((((split_name inp.name).1.set 6 126).set 7 49) ++
            (split_name inp.name).2.1))
          (split_name inp.name).2.2 := by
      cases hprev : prev_span s <;> rw [hfnew, hprev] <;>
        simp only [make_file_entry] <;> rw [if_pos hlong', if_pos hlong']
    have hpnne : (split_name inp.name).2.2 ≠ [] := by
      intro h0
      rw [h0] at hlong'
      simp at hlong'
    refine ⟨?_, ?_, ?_, ?_⟩
    · intro p hp
      rw [hlfn] at hp
      have := (make_lfn_parts_mem _ _ p hp).1
      rw [this, hname, hext, lfn_checksum_eq_spec]
    · intro p hp
      rw [hlfn] at hp
      have h := make_lfn_parts_mem _ _ p hp
      exact ⟨h.2.2.2.2.1, h.2.2.2.2.2.1, h.2.2.2.2.2.2⟩
    · rw [hlfn, make_lfn_parts_map_seq _ _ hpnne, make_lfn_parts_length]
    · intro files label hmem
      exact root_dir_entries_decompose files label fnew hmem

/-- Witness for C9: registering "a_very_long_name.bin" (printable length
20) produces two fragments with sequences `[0x42, 0x01]` and checksum 240
(the checksum of "A_VERY~1BIN") on both; the full chain property follows
by the claim theorem. -/
theorem c9_lfn_chain_structure_witness :
    ((stLONG.root_directory.getLast?).map (fun f => f.printable_name.length)
        = some 20) ∧
    ((stLONG.root_directory.getLast?).map
        (fun f => f.lfn_parts.map (fun p => p.sequence)) = some [66, 1]) ∧
    ((stLONG.root_directory.getLast?).map
        (fun f => f.lfn_parts.map (fun p => p.checksum)) = some [240, 240]) ∧
    ((stLONG.root_directory.getLast?).map (fun f => f.name ++ f.ext)
        = some [65, 95, 86, 69, 82, 89, 126, 49, 66, 73, 78]) ∧
    ∀ f ∈ (register_virtual_file g0 (initial_vdisk g0) inpLONG).1.root_directory.getLast?,
      12 < f.printable_name.length →
      (∀ p ∈ f.lfn_parts, p.checksum = spec_lfn_checksum (f.name ++ f.ext)) ∧
      (∀ p ∈ f.lfn_parts,
        p.name1.length = 5 ∧ p.name2.length = 6 ∧ p.name3.length = 2) ∧
      (f.lfn_parts.map (fun p => p.sequence) =
        (f.lfn_parts.length ||| 64) ::
          (List.range' 1 (f.lfn_parts.length - 1)).reverse) ∧
      (∀ (files : List fat_file_entry_t) (label : List Nat), f ∈ files →
        ∃ pre post, root_dir_entries files label f.root_dir_sector =
          pre ++ f.lfn_parts.map DirEntry32.lfn ++
            [DirEntry32.short ((space_padded_memcpy 11 (f.name ++ f.ext)).take 8)
              (space_padded_memcpy 3 f.ext) f.attributes f.size f.start_cluster
              0x4d99 0x4d99] ++ post) :=
  ⟨by decide, by decide, by decide, by decide,
    c9_lfn_chain_structure g0 (initial_vdisk g0) inpLONG (by decide)⟩


/-! ### C6 — the inactivity timer, commit sequence, and once-per-attempt -/

theorem ccount_append (c : ExtCall) (l1 l2 : List ExtCall) :
    ccount c (l1 ++ l2) = ccount c l1 + ccount c l2 := by
  induction l1 with
  | nil => simp [ccount]
  | cons x t ih => simp [ccount, ih, Nat.add_assoc]

theorem detect_phase_potential (chip : Nat) (s : OtaState) (buf : WriteBuffer)
    (env : WriteEnv) :
    ccount ExtCall.end_cb (detect_phase chip s buf env).2.1 +
        phi (detect_phase chip s buf env).1 ≤
      ccount ExtCall.ota_begin (detect_phase chip s buf env).2.1 + phi s := by
  simp only [detect_phase]
  repeat' split
  all_goals simp_all [ccount, phi]
  all_goals split <;> simp_all

theorem ota_write_phase_potential (s : OtaState) (env : WriteEnv) (len : Nat) :
    ccount ExtCall.end_cb (ota_write_phase s env len).2.1 +
        phi (ota_write_phase s env len).1 ≤
      ccount ExtCall.ota_begin (ota_write_phase s env len).2.1 + phi s := by
  simp only [ota_write_phase]
  repeat' split
  all_goals simp_all [ccount, phi]

theorem timer_restart_phase_potential (s : OtaState) (env : WriteEnv) (len : Nat) :
    ccount ExtCall.end_cb (timer_restart_phase s env len).2.1 +
        phi (timer_restart_phase s env len).1 ≤
      ccount ExtCall.ota_begin (timer_restart_phase s env len).2.1 + phi s := by
  simp only [timer_restart_phase]
  repeat' split
  all_goals simp_all [ccount, phi]

theorem write_data_step_potential (chip : Nat) (s : OtaState) (buf : WriteBuffer)
    (env : WriteEnv) :
    ccount ExtCall.end_cb (write_data_step chip s buf env).2.1 +
        phi (write_data_step chip s buf env).1 ≤
      ccount ExtCall.ota_begin (write_data_step chip s buf env).2.1 + phi s := by
  unfold write_data_step
  have hdp := detect_phase_potential chip s buf env
  rcases hd : detect_phase chip s buf env with ⟨s1, c1, r1⟩
  rw [hd] at hdp
  simp only at hdp
  cases r1 with
  | some r => simpa using hdp
  | none =>
    dsimp only
    have hwp := ota_write_phase_potential s1 env buf.len
    rcases hw : ota_write_phase s1 env buf.len with ⟨s2, c2, r2⟩
    rw [hw] at hwp
    simp only at hwp
    cases r2 with
    | some r =>
      dsimp only
      simp only [ccount_append]
      omega
    | none =>
      dsimp only
      have htp := timer_restart_phase_potential s2 env buf.len
      rcases ht : timer_restart_phase s2 env buf.len with ⟨s3, c3, r3⟩
      rw [ht] at htp
      simp only at htp
      dsimp only
      simp only [ccount_append]
      omega

theorem tud_msc_write10_potential (g : Geometry) (chip : Nat)
    (files : List fat_file_entry_t) (s : OtaState) (lba : Nat)
    (buf : WriteBuffer) (env : WriteEnv) :
    ccount ExtCall.end_cb (tud_msc_write10_cb g chip files s lba buf env).2.1 +
        phi (tud_msc_write10_cb g chip files s lba buf env).1 ≤
      ccount ExtCall.ota_begin
          (tud_msc_write10_cb g chip files s lba buf env).2.1 + phi s := by
  unfold tud_msc_write10_cb
  split
  · simp [ccount]
  · split
    · simp [ccount]
    · split
      · simp [ccount]
      · exact write_data_step_potential chip s buf env

theorem msc_step_potential (g : Geometry) (chip : Nat)
    (files : List fat_file_entry_t) (s : OtaState) (e : MscEvent) :
    ccount ExtCall.end_cb (msc_step g chip files s e).2 +
        phi (msc_step g chip files s e).1 ≤
      ccount ExtCall.ota_begin (msc_step g chip files s e).2 + phi s := by
  cases e with
  | write lba buf env =>
    have h := tud_msc_write10_potential g chip files s lba buf env
    simp only [msc_step]
    rcases hw : tud_msc_write10_cb g chip files s lba buf env with ⟨s1, calls, r⟩
    rw [hw] at h
    simp only at h
    dsimp only
    exact h
  | timer_fire ok =>
    simp only [msc_step]
    unfold msc_write_timeout_cb
    split
    · rename_i hcond
      have hif : (if s.ota_update_handle = 0 then (0 : Nat) else 1) = 1 :=
        if_neg hcond.2
      split <;> simp [ccount, phi, hif]
    · simp [ccount, phi]

theorem msc_trace_potential (g : Geometry) (chip : Nat)
    (files : List fat_file_entry_t) :
    ∀ (evs : List MscEvent) (s : OtaState),
      ccount ExtCall.end_cb (msc_trace_calls g chip files s evs).flatten +
        phi (msc_run g chip files s evs) ≤
      ccount ExtCall.ota_begin (msc_trace_calls g chip files s evs).flatten +
        phi s := by
  intro evs
  induction evs with
  | nil => intro s; simp [msc_trace_calls, msc_run, ccount]
  | cons e rest ih =>
    intro s
    have hstep := msc_step_potential g chip files s e
    have hrest := ih (msc_step g chip files s e).1
    simp only [msc_trace_calls, msc_run, List.flatten_cons, ccount_append]
    omega

theorem detect_phase_ret (chip : Nat) (s : OtaState) (buf : WriteBuffer)
    (env : WriteEnv) (r : Int)
    (h : (detect_phase chip s buf env).2.2 = some r) : r = -1 := by
  simp only [detect_phase] at h
  repeat' split at h
  all_goals simp_all

theorem ota_write_phase_ret (s : OtaState) (env : WriteEnv) (len : Nat) (r : Int)
    (h : (ota_write_phase s env len).2.2 = some r) : r = -1 := by
  simp only [ota_write_phase] at h
  repeat' split at h
  all_goals simp_all

theorem timer_restart_phase_cases (s : OtaState) (env : WriteEnv) (len : Nat) :
    ((timer_restart_phase s env len).1.timer_armed = true ∧
      (timer_restart_phase s env len).2.2 = (len : Int)) ∨
    (timer_restart_phase s env len).2.2 = (-1 : Int) := by
  simp only [timer_restart_phase]
  repeat' split
  all_goals simp_all

theorem write_data_step_ret_armed (chip : Nat) (s : OtaState) (buf : WriteBuffer)
    (env : WriteEnv)
    (h : (write_data_step chip s buf env).2.2 = (buf.len : Int)) :
    (write_data_step chip s buf env).1.timer_armed = true := by
  have hlen : ((buf.len : Int)) ≠ -1 := by
    have : (0 : Int) ≤ (buf.len : Int) := Int.natCast_nonneg _
    omega
  unfold write_data_step at h ⊢
  rcases hd : detect_phase chip s buf env with ⟨s1, c1, r1⟩
  rw [hd] at h
  cases r1 with
  | some r =>
    dsimp only at h
    have hr : r = -1 := detect_phase_ret chip s buf env r (by rw [hd])
    exact absurd (show (buf.len : Int) = -1 by rw [← h]; exact hr) hlen
  | none =>
    dsimp only at h ⊢
    rcases hw : ota_write_phase s1 env buf.len with ⟨s2, c2, r2⟩
    rw [hw] at h
    cases r2 with
    | some r =>
      dsimp only at h
      have hr : r = -1 := ota_write_phase_ret s1 env buf.len r (by rw [hw])
      exact absurd (show (buf.len : Int) = -1 by rw [← h]; exact hr) hlen
    | none =>
      dsimp only at h ⊢
      have hcases := timer_restart_phase_cases s2 env buf.len
      rcases ht : timer_restart_phase s2 env buf.len with ⟨s3, c3, r3⟩
      rw [ht] at h hcases
      dsimp only at h hcases ⊢
      rcases hcases with ⟨harm, _⟩ | hneg
      · exact harm
      · exact absurd (show (buf.len : Int) = -1 by rw [← h]; exact hneg) hlen

/-- Claim C6 as amended (corrected): (1) every file-data write that
completes successfully — returns `bufsize` rather than `-1` — leaves the
1000 ms inactivity timer armed; (2) when the timer fires while an OTA
transfer is in progress (partition set, handle open) and `esp_ota_end`
succeeds, the external calls are exactly `ota_end`, `set_boot_partition`,
`ota_update_end_cb` in that order and the pipeline state returns to Idle
(handle, partition and byte counter cleared); (3) along any event trace
from the initial state, `ota_update_end_cb` is called at most once per
OTA attempt: the number of `end_cb` calls never exceeds the number of
`ota_begin` calls. -/
theorem c6_amended_inactivity_timer :
    (∀ (g : Geometry) (chip : Nat) (files : List fat_file_entry_t)
        (s : OtaState) (lba : Nat) (buf : WriteBuffer) (env : WriteEnv),
        0 < FILE_CONTENT_FIRST_SECTOR g → FILE_CONTENT_FIRST_SECTOR g ≤ lba →
        (tud_msc_write10_cb g chip files s lba buf env).2.2 = (buf.len : Int) →
        (tud_msc_write10_cb g chip files s lba buf env).1.timer_armed = true) ∧
    (∀ s : OtaState, s.ota_has_partition = true → s.ota_update_handle ≠ 0 →
        (msc_write_timeout_cb s true).2 =
          [ExtCall.ota_end, ExtCall.set_boot, ExtCall.end_cb] ∧
        (msc_write_timeout_cb s true).1.ota_update_handle = 0 ∧
        (msc_write_timeout_cb s true).1.ota_has_partition = false ∧
        (msc_write_timeout_cb s true).1.ota_bytes_received = 0) ∧
    (∀ (g : Geometry) (chip : Nat) (files : List fat_file_entry_t)
        (evs : List MscEvent),
        ccount ExtCall.end_cb
            (msc_trace_calls g chip files initial_ota_state evs).flatten ≤
          ccount ExtCall.ota_begin
            (msc_trace_calls g chip files initial_ota_state evs).flatten) := by
  refine ⟨?_, ?_, ?_⟩
  · intro g chip files s lba buf env hg hlba hret
    have hr : ROOT_DIR_FIRST_SECTOR g ≤ FILE_CONTENT_FIRST_SECTOR g := by
      unfold FILE_CONTENT_FIRST_SECTOR; omega
    unfold tud_msc_write10_cb at hret ⊢
    rw [if_neg (by omega), if_neg (by omega), if_neg (by omega)] at hret ⊢
    exact write_data_step_ret_armed chip s buf env hret
  · intro s hp hh
    unfold msc_write_timeout_cb
    rw [if_pos ⟨by rw [hp], hh⟩]
    exact ⟨by rw [if_pos rfl], rfl, rfl, rfl⟩
  · intro g chip files evs
    have h := msc_trace_potential g chip files evs initial_ota_state
    have h0 : phi initial_ota_state = 0 := rfl
    omega

/-- Witness for C6 (amended): on the default disk, a successfully
processed data write at LBA 66 leaves the timer armed; a timer expiry in
the `receivingState` issues `ota_end`, `set_boot`, `end_cb` and clears the
OTA state; and the three-event trace of claim C3 calls `end_cb` at most
once per `ota_begin`. -/
theorem c6_amended_inactivity_timer_witness :
    (tud_msc_write10_cb g0 2 [] initial_ota_state 66 plainBuf goodEnv).1.timer_armed
        = true ∧
    ((msc_write_timeout_cb receivingState true).2 =
        [ExtCall.ota_end, ExtCall.set_boot, ExtCall.end_cb] ∧
      (msc_write_timeout_cb receivingState true).1.ota_update_handle = 0 ∧
      (msc_write_timeout_cb receivingState true).1.ota_has_partition = false ∧
      (msc_write_timeout_cb receivingState true).1.ota_bytes_received = 0) ∧
    ccount ExtCall.end_cb
        (msc_trace_calls g0 2 [] initial_ota_state c3trace).flatten ≤
      ccount ExtCall.ota_begin
        (msc_trace_calls g0 2 [] initial_ota_state c3trace).flatten := by
  refine ⟨?_, ?_, ?_⟩
  · exact c6_amended_inactivity_timer.1 g0 2 [] initial_ota_state 66 plainBuf
      goodEnv (by decide) (by decide) (by decide)
  · exact c6_amended_inactivity_timer.2.1 receivingState (by decide) (by decide)
  · exact c6_amended_inactivity_timer.2.2 g0 2 [] c3trace


end Esp32Usb
